import Mathlib

/-!
Verification of the Schools.by scraping client (`schools_api.py`).

The development shallowly embeds the client's pure logic over an abstract
model of BeautifulSoup documents: a parsed document is a list of `Node`
records in document order, each carrying the attributes the client reads
(`tag`, `name`, `type`, `value`, `content`, `class`, `href`), the element's
visible text (`get_text()`), and, for script elements, the `.string`
payload.  Python string operations (`in`, `startswith`, `lower`, `strip`,
`split`, `find`, `rfind`, truthiness) are modelled by executable functions
on `List Char` / `String`, and `json.loads` by an executable fueled JSON
parser.  Fallible code is modelled with `Except String`.
-/

namespace SchoolsBy

/-! ## Python string primitives -/

/-- Membership of `pat` at the head of `cs` (Python `startswith` on char lists). -/
def takesPre : List Char → List Char → Bool
  | [], _ => true
  | p :: ps, cs =>
    match cs with
    | [] => false
    | c :: rest => p = c && takesPre ps rest

/-- Substring test on char lists (Python `pat in s`). -/
def subInL (pat : List Char) : List Char → Bool
  | [] => takesPre pat []
  | c :: cs => takesPre pat (c :: cs) || subInL pat cs

/-- Substring test on strings (Python `pat in s`). -/
def subIn (pat s : String) : Bool := subInL pat.data s.data

/-- Whitespace recognized by Python `str.strip()` (ASCII subset). -/
def isPyWs (c : Char) : Bool :=
  c = ' ' || c = '\t' || c = '\n' || c = '\r' || c = '\x0b' || c = '\x0c'

/-- Python `str.strip()` on char lists. -/
def pyStrip (cs : List Char) : List Char :=
  ((cs.dropWhile isPyWs).reverse.dropWhile isPyWs).reverse

/-- Python `str.split('\n')`: split at every newline, keeping empty pieces. -/
def splitNl : List Char → List (List Char)
  | [] => [[]]
  | c :: rest =>
    match splitNl rest with
    | [] => [[]]
    | l :: ls => if c = '\n' then [] :: l :: ls else (c :: l) :: ls

/-- Index of the first occurrence of `c` (Python `str.find`, as an `Option`). -/
def firstIdxOf (c : Char) : List Char → Option Nat
  | [] => none
  | x :: xs => if x = c then some 0 else (firstIdxOf c xs).map (· + 1)

/-- Index of the last occurrence of `c` (Python `str.rfind`, as an `Option`). -/
def lastIdxOf (c : Char) (cs : List Char) : Option Nat :=
  match cs with
  | [] => none
  | x :: xs =>
    match lastIdxOf c xs with
    | some i => some (i + 1)
    | none => if x = c then some 0 else none

/-- Python slice `cs[start:stop]` for non-negative bounds. -/
def pySlice (cs : List Char) (start stop : Nat) : List Char :=
  (cs.drop start).take (stop - start)

/-- Python truncation `s[:n]`. -/
def pyTake (s : String) (n : Nat) : String := String.mk (s.data.take n)

/-- Python truthiness of an optional string attribute (`None` and `""` are falsy). -/
def pyFalsy (o : Option String) : Bool := (o.getD "") = ""

/-- Python `a or b` on two optional-string attribute reads: the first truthy
value wins, otherwise the second value is produced verbatim. -/
def pyOrStr (a b : Option String) : Option String :=
  match a with
  | some s => if s = "" then b else some s
  | none => b

/-- Rendering used by Python f-strings for an optional string (`None` prints as `"None"`). -/
def pyShowOpt : Option String → String
  | none => "None"
  | some s => s

/-- Python `str.lower()` (ASCII case folding, character by character). -/
def pyLower (s : String) : String := String.mk (s.data.map Char.toLower)

/-- Python `s.startswith(pre)`. -/
def pyStarts (s pre : String) : Bool := takesPre pre.data s.data

/-- Python `' '.join(xs)`. -/
def pyJoinSp : List String → String
  | [] => ""
  | [s] => s
  | s :: rest => s ++ " " ++ pyJoinSp rest

/-- Opening-brace character, written via its code point. -/
def lbrace : Char := '\x7b'

/-- Closing-brace character, written via its code point. -/
def rbrace : Char := '\x7d'

/-- Single-quote character, written via its code point. -/
def squote : Char := Char.ofNat 39

/-! ## Document model -/

/-- One parsed element of a BeautifulSoup document, in document order.
`strContent` models `element.string` (only meaningful for scripts);
`text` models `element.get_text()`. -/
structure Node where
  tag : String
  nameAttr : Option String := none
  typeAttr : Option String := none
  valueAttr : Option String := none
  contentAttr : Option String := none
  classAttr : Option String := none
  hrefAttr : Option String := none
  text : String := ""
  strContent : Option String := none
deriving DecidableEq, Repr

/-! ## Login-form field inference (`SchoolsAPI.authenticate`, lines 216-235) -/

/-- Candidate username field names from the source. -/
def possibleUsernameNames : List String := ["username", "login", "email", "user", "login_name"]

/-- Candidate password field names from the source. -/
def possiblePasswordNames : List String := ["password", "pass", "pwd"]

/-- Username-side match condition of the inference loop:
`name in possible_username_names or input_type == 'email'`. -/
def matchU (n : Node) : Bool :=
  possibleUsernameNames.contains (pyLower (n.nameAttr.getD ""))
    || pyLower (n.typeAttr.getD "") = "email"

/-- Password-side match condition of the inference loop:
`name in possible_password_names or input_type == 'password'`. -/
def matchP (n : Node) : Bool :=
  possiblePasswordNames.contains (pyLower (n.nameAttr.getD ""))
    || pyLower (n.typeAttr.getD "") = "password"

/-- The `for inp in input_fields` loop of `authenticate`: an `if`/`elif`
chain updating `username_field` / `password_field`. -/
def inferFieldsLoop : List Node → Option String → Option String → Option String × Option String
  | [], u, p => (u, p)
  | n :: rest, u, p =>
    if pyFalsy u && matchU n then inferFieldsLoop rest n.nameAttr p
    else if pyFalsy p && matchP n then inferFieldsLoop rest u n.nameAttr
    else inferFieldsLoop rest u p

/-- Field inference over the first form's input fields. -/
def inferFields (inputs : List Node) : Option String × Option String :=
  inferFieldsLoop inputs none none

/-- The `if not username_field or not password_field: raise` check that follows
the inference loop, with the source's error message. -/
def fieldsCheck (up : Option String × Option String) : Except String (String × String) :=
  if pyFalsy up.1 || pyFalsy up.2 then
    .error ("Cannot find login fields. Found: username=" ++ pyShowOpt up.1
      ++ ", password=" ++ pyShowOpt up.2)
  else .ok (up.1.getD "", up.2.getD "")

/-! ## Authentication outcome classification (`authenticate`, lines 276-324) -/

/-- The response the login POST produced, as the classification step reads it:
status code, optional `Location` header, parsed body, raw body text and the
session's cookie jar at that moment. -/
structure AuthResp where
  status : Nat
  location : Option String
  bodyNodes : List Node
  bodyText : String
  cookies : List (String × String)
deriving DecidableEq, Repr

/-- Result dictionaries returned by `authenticate`, as a tagged variant. -/
inductive AuthResult where
  | success (message : String) (status : Nat) (redirect : Option String)
      (cookies : List (String × String))
  | failure (error : String) (status : Nat) (response : Option String)
deriving DecidableEq, Repr

/-- The `class_=lambda x: x and ('error' in x.lower() or 'alert' in x.lower())`
filter applied by the 200-status branch, restricted to div/span/p tags as in
`find_all(['div', 'span', 'p'], ...)`. -/
def errNodeP (n : Node) : Bool :=
  (n.tag = "div" || n.tag = "span" || n.tag = "p")
    && (match n.classAttr with
        | none => false
        | some x => x ≠ "" && (subIn "error" (pyLower x) || subIn "alert" (pyLower x)))

/-- Step 7 of `authenticate`: classify the response of the credential POST. -/
def classifyAuthResponse (r : AuthResp) : AuthResult :=
  if r.status = 200 then
    let errs := r.bodyNodes.filter errNodeP
    if errs.isEmpty then
      .success "Authentication successful" r.status none r.cookies
    else
      .failure ("Authentication failed: "
          ++ pyJoinSp (errs.map (fun n => String.mk (pyStrip n.text.data))))
        r.status none
  else if r.status = 302 || r.status = 303 || r.status = 307 then
    let location := r.location.getD ""
    if !subIn "/login" (pyLower location) then
      .success "Authentication successful (redirected)" r.status (some location) r.cookies
    else
      .failure "Authentication failed (redirected back to login)" r.status none
  else
    .failure ("Authentication failed: HTTP " ++ toString r.status) r.status
      (some (pyTake r.bodyText 500))

/-! ## JSON values and `json.loads` -/

/-- JSON values as produced by `json.loads`.  Numeric literals are kept
verbatim (the claims never compare floating-point values); objects keep
their key/value pairs in textual order. -/
inductive Jval where
  | jnull
  | jbool (b : Bool)
  | jnum (lit : String)
  | jstr (s : String)
  | jarr (xs : List Jval)
  | jobj (fields : List (String × Jval))
deriving Repr, Inhabited

/-- JSON whitespace accepted by Python's strict `json.loads`. -/
def isJsonWs (c : Char) : Bool := c = ' ' || c = '\t' || c = '\n' || c = '\r'

/-- Drop leading JSON whitespace. -/
def skipWsL (cs : List Char) : List Char := cs.dropWhile isJsonWs

/-- Hexadecimal digit value, for `\uXXXX` escapes. -/
def hexVal (c : Char) : Option Nat :=
  let n := c.toNat
  if 48 ≤ n && n ≤ 57 then some (n - 48)
  else if 97 ≤ n && n ≤ 102 then some (n - 87)
  else if 65 ≤ n && n ≤ 70 then some (n - 55)
  else none

/-- Body of a JSON string literal (after the opening quote), with escapes;
strict mode rejects raw control characters. -/
def parseJStrAux : Nat → List Char → List Char → Option (String × List Char)
  | 0, _, _ => none
  | _ + 1, _, [] => none
  | fuel + 1, acc, c :: cs =>
    if c = '"' then some (String.mk acc.reverse, cs)
    else if c = '\\' then
      match cs with
      | [] => none
      | e :: cs2 =>
        if e = '"' then parseJStrAux fuel ('"' :: acc) cs2
        else if e = '\\' then parseJStrAux fuel ('\\' :: acc) cs2
        else if e = '/' then parseJStrAux fuel ('/' :: acc) cs2
        else if e = 'b' then parseJStrAux fuel ('\x08' :: acc) cs2
        else if e = 'f' then parseJStrAux fuel ('\x0c' :: acc) cs2
        else if e = 'n' then parseJStrAux fuel ('\n' :: acc) cs2
        else if e = 'r' then parseJStrAux fuel ('\r' :: acc) cs2
        else if e = 't' then parseJStrAux fuel ('\t' :: acc) cs2
        else if e = 'u' then
          match cs2 with
          | h1 :: h2 :: h3 :: h4 :: cs3 =>
            match hexVal h1, hexVal h2, hexVal h3, hexVal h4 with
            | some a, some b, some c2, some d =>
              parseJStrAux fuel (Char.ofNat (((a * 16 + b) * 16 + c2) * 16 + d) :: acc) cs3
            | _, _, _, _ => none
          | _ => none
        else none
    else if c.toNat < 32 then none
    else parseJStrAux fuel (c :: acc) cs

/-- JSON string literal starting right after the opening quote. -/
def parseJStr (cs : List Char) : Option (String × List Char) :=
  parseJStrAux (cs.length + 1) [] cs

/-- Exponent part of a JSON number (empty if absent); fails on a bare `e`. -/
def parseExpPart (cs : List Char) : Option (List Char × List Char) :=
  match cs with
  | c :: rest =>
    if c = 'e' || c = 'E' then
      let (sgn, rest2) :=
        match rest with
        | s :: r2 => if s = '+' || s = '-' then ([s], r2) else ([], rest)
        | [] => ([], rest)
      let ds := rest2.takeWhile Char.isDigit
      if ds.isEmpty then none
      else some (c :: (sgn ++ ds), rest2.drop ds.length)
    else some ([], cs)
  | [] => some ([], cs)

/-- Fraction part of a JSON number (empty if absent); fails on a bare dot. -/
def parseFracPart (cs : List Char) : Option (List Char × List Char) :=
  match cs with
  | c :: rest =>
    if c = '.' then
      let ds := rest.takeWhile Char.isDigit
      if ds.isEmpty then none else some (c :: ds, rest.drop ds.length)
    else some ([], cs)
  | [] => some ([], cs)

/-- JSON numeric literal, including the `Infinity` / `-Infinity` extensions
accepted by Python's `json.loads`; leading zeros are rejected. -/
def parseNumTail (neg : Bool) (cs1 : List Char) : Option (Jval × List Char) :=
  if takesPre "Infinity".data cs1 then
    some (.jnum (if neg then "-Infinity" else "Infinity"), cs1.drop 8)
  else
    let intPart := cs1.takeWhile Char.isDigit
    if intPart.isEmpty then none
    else if intPart.length > 1 && intPart.headD ' ' = '0' then none
    else
      let cs2 := cs1.drop intPart.length
      match parseFracPart cs2 with
      | none => none
      | some (fr, cs3) =>
        match parseExpPart cs3 with
        | none => none
        | some (ex, cs4) =>
          some (.jnum (String.mk ((if neg then ['-'] else []) ++ intPart ++ fr ++ ex)), cs4)

/-- JSON numeric literal, dispatching on an optional leading minus sign. -/
def parseNum (cs : List Char) : Option (Jval × List Char) :=
  match cs with
  | '-' :: r => parseNumTail true r
  | _ => parseNumTail false cs

/-- Parsing mode: a single value, the items of an array, or the items of an object. -/
inductive PMode where
  | val
  | arrItems
  | objItems

/-- Fueled recursive-descent core of `json.loads`.  `arrItems` returns its
items wrapped in `jarr`, `objItems` its pairs wrapped in `jobj`. -/
def parseCore : Nat → PMode → List Char → Option (Jval × List Char)
  | 0, _, _ => none
  | fuel + 1, .val, cs =>
    match skipWsL cs with
    | [] => none
    | c :: rest =>
      if c = 'n' then
        match rest with
        | 'u' :: 'l' :: 'l' :: r => some (.jnull, r)
        | _ => none
      else if c = 't' then
        match rest with
        | 'r' :: 'u' :: 'e' :: r => some (.jbool true, r)
        | _ => none
      else if c = 'f' then
        match rest with
        | 'a' :: 'l' :: 's' :: 'e' :: r => some (.jbool false, r)
        | _ => none
      else if c = 'N' then
        match rest with
        | 'a' :: 'N' :: r => some (.jnum "NaN", r)
        | _ => none
      else if c = '"' then
        match parseJStr rest with
        | some (s, r) => some (.jstr s, r)
        | none => none
      else if c = '[' then
        match skipWsL rest with
        | ']' :: r => some (.jarr [], r)
        | rest2 => parseCore fuel .arrItems rest2
      else if c = lbrace then
        match skipWsL rest with
        | r =>
          if r.headD ' ' = rbrace then some (.jobj [], r.tail)
          else parseCore fuel .objItems r
      else if c = '-' || c.isDigit then parseNum (c :: rest)
      else none
  | fuel + 1, .arrItems, cs =>
    match parseCore fuel .val cs with
    | none => none
    | some (v, r) =>
      match skipWsL r with
      | ',' :: r2 =>
        match parseCore fuel .arrItems r2 with
        | some (.jarr xs, r3) => some (.jarr (v :: xs), r3)
        | _ => none
      | ']' :: r2 => some (.jarr [v], r2)
      | _ => none
  | fuel + 1, .objItems, cs =>
    match skipWsL cs with
    | '"' :: r =>
      match parseJStr r with
      | none => none
      | some (k, r2) =>
        match skipWsL r2 with
        | ':' :: r3 =>
          match parseCore fuel .val r3 with
          | none => none
          | some (v, r4) =>
            match skipWsL r4 with
            | ',' :: r5 =>
              match parseCore fuel .objItems r5 with
              | some (.jobj fs, r6) => some (.jobj ((k, v) :: fs), r6)
              | _ => none
            | c :: r5 =>
              if c = rbrace then some (.jobj [(k, v)], r5) else none
            | [] => none
        | _ => none
    | _ => none

/-- Python `json.loads` on a char list: one value, optionally surrounded by
whitespace, with nothing trailing. -/
def jsonParseChars (cs : List Char) : Option Jval :=
  match parseCore (4 * cs.length + 16) .val cs with
  | some (v, rest) => if (skipWsL rest).isEmpty then some v else none
  | none => none

/-- Python `json.loads` on a string. -/
def jsonLoads (s : String) : Option Jval := jsonParseChars s.data

/-! ## JSON extraction from HTML (`SchoolsAPI._extract_json_from_html`, lines 105-130) -/

/-- First successful application of `f` along a list (the shape of the
source's early-`return` loops). -/
def firstSome {A B : Type} (f : A → Option B) : List A → Option B
  | [] => none
  | a :: rest =>
    match f a with
    | some b => some b
    | none => firstSome f rest

/-- Per-line candidate handling inside the scan: lines mentioning `data` or
`config` (case-insensitively) with both braces present are sliced between the
first brace and the last closing brace and strictly parsed; a failed parse is
skipped (`except ... continue`). -/
def lineCandidate (line : List Char) : Option Jval :=
  if subInL "data".data (pyLower (String.mk line)).data
      || subInL "config".data (pyLower (String.mk line)).data then
    if line.any (fun c => c = lbrace) && line.any (fun c => c = rbrace) then
      match firstIdxOf lbrace line, lastIdxOf rbrace line with
      | some st, some en => jsonParseChars (pySlice line st (en + 1))
      | _, _ => none
    else none
  else none

/-- First successful line candidate of one script's lines. -/
def scanScriptLines (lines : List (List Char)) : Option Jval :=
  firstSome lineCandidate lines

/-- One script element: requires a truthy `.string`, strips it, and only
scans scripts whose stripped content mentions `window.` or `var `. -/
def scanScript (content : String) : Option Jval :=
  let st := pyStrip content.data
  if subInL "window.".data st || subInL "var ".data st then
    scanScriptLines (splitNl st)
  else none

/-- The `for script in scripts` loop over all script elements with a truthy
`.string`. -/
def scanScripts (nodes : List Node) : Option Jval :=
  firstSome (fun n =>
    if n.tag = "script" then
      match n.strContent with
      | some s => if s = "" then none else scanScript s
      | none => none
    else none) nodes

/-- `_extract_json_from_html`: first successful parse from the scripts, else
the raw markup wrapped as a one-entry dict. -/
def extract_json_from_html (nodes : List Node) (html : String) : Jval :=
  match scanScripts nodes with
  | some v => v
  | none => .jobj [("html", .jstr html)]

/-! ## CSRF-token discovery (`SchoolsAPI.get_csrf_token`, lines 132-166) -/

/-- BeautifulSoup `soup.find(tag, attrs={'name': nm})`: first element in
document order with the given tag and exact `name` attribute. -/
def findByNameAttr (nodes : List Node) (tag nm : String) : Option Node :=
  nodes.find? (fun n => n.tag = tag && n.nameAttr = some nm)

/-- `csrf_input.get('value') or csrf_input.get('content')`, followed by the
`if token:` truthiness gate. -/
def candToken (n : Node) : Option String :=
  match pyOrStr n.valueAttr n.contentAttr with
  | some s => if s = "" then none else some s
  | none => none

/-- The `for csrf_input in csrf_inputs` loop: skip absent candidates and
candidates without a truthy token. -/
def tokenFromCands : List (Option Node) → Option String
  | [] => none
  | none :: rest => tokenFromCands rest
  | some n :: rest =>
    match candToken n with
    | some t => some t
    | none => tokenFromCands rest

/-- Whitespace class `\s` of the `re` module (ASCII subset). -/
def isReWs (c : Char) : Bool :=
  c = ' ' || c = '\t' || c = '\n' || c = '\r' || c = '\x0b' || c = '\x0c'

/-- Character class `[a-zA-Z0-9\-_]` of the token patterns. -/
def isTokCh (c : Char) : Bool :=
  let n := c.toNat
  (97 ≤ n && n ≤ 122) || (65 ≤ n && n ≤ 90) || (48 ≤ n && n ≤ 57) || c = '-' || c = '_'

/-- Case-insensitive literal match (the literal is given lowercased);
returns the rest of the input. -/
def litCI : List Char → List Char → Option (List Char)
  | [], cs => some cs
  | _ :: _, [] => none
  | l :: ls, c :: cs => if c.toLower = l then litCI ls cs else none

/-- Tail of both token regexes: `["\']?\s*[:=]\s*["\']([a-zA-Z0-9\-_]+)["\']`.
Each optional/greedy point is deterministic for these patterns, so no
backtracking is required. -/
def matchTokTail (cs : List Char) : Option String :=
  let cs1 := match cs with
    | c :: rest => if c = '"' || c = squote then rest else cs
    | [] => cs
  match cs1.dropWhile isReWs with
  | c :: rest =>
    if c = ':' || c = '=' then
      match rest.dropWhile isReWs with
      | q :: rest2 =>
        if q = '"' || q = squote then
          let tok := rest2.takeWhile isTokCh
          if tok.isEmpty then none
          else
            match rest2.drop tok.length with
            | c2 :: _ => if c2 = '"' || c2 = squote then some (String.mk tok) else none
            | [] => none
        else none
      | [] => none
    else none
  | [] => none

/-- Match of pattern `csrf[_\-]?token["\']?\s*[:=]\s*["\']([a-zA-Z0-9\-_]+)["\']`
(IGNORECASE) anchored at the start of `cs`. -/
def matchPat1At (cs : List Char) : Option String :=
  match litCI "csrf".data cs with
  | none => none
  | some cs1 =>
    let cs2 := match cs1 with
      | c :: rest => if c = '_' || c = '-' then some rest else none
      | [] => none
    match cs2 with
    | some r =>
      match litCI "token".data r with
      | some r2 => matchTokTail r2
      | none => none
    | none =>
      match litCI "token".data cs1 with
      | some r2 => matchTokTail r2
      | none => none

/-- Match of pattern `_token["\']?\s*[:=]\s*["\']([a-zA-Z0-9\-_]+)["\']`
(IGNORECASE) anchored at the start of `cs`. -/
def matchPat2At (cs : List Char) : Option String :=
  match litCI "_token".data cs with
  | some r => matchTokTail r
  | none => none

/-- `re.search`: leftmost position at which the anchored matcher succeeds. -/
def reSearch (f : List Char → Option String) : List Char → Option String
  | [] => f []
  | c :: cs =>
    match f (c :: cs) with
    | some t => some t
    | none => reSearch f cs

/-- The script fallback of `get_csrf_token`: scripts with a truthy `.string`
mentioning `csrf` or `token` are searched with the two patterns in order. -/
def scriptTokens (nodes : List Node) : Option String :=
  firstSome (fun n =>
    if n.tag = "script" then
      match n.strContent with
      | some content =>
        if content = "" then none
        else if subIn "csrf" (pyLower content) || subIn "token" (pyLower content) then
          match reSearch matchPat1At content.data with
          | some t => some t
          | none => reSearch matchPat2At content.data
        else none
      | none => none
    else none) nodes

/-- `get_csrf_token`: the four find-based candidates in priority order, then
the script fallback, then `None`. -/
def get_csrf_token (nodes : List Node) : Option String :=
  match tokenFromCands
      [findByNameAttr nodes "input" "csrfmiddlewaretoken",
       findByNameAttr nodes "input" "_token",
       findByNameAttr nodes "input" "csrf_token",
       findByNameAttr nodes "meta" "csrf-token"] with
  | some t => some t
  | none => scriptTokens nodes

/-! ## Python dynamic operations on JSON values -/

/-- Is a JSON numeric literal a zero value (Python falsy)?  `NaN` and the
infinities are truthy. -/
def numLitIsZero (lit : String) : Bool :=
  if lit = "NaN" || lit = "Infinity" || lit = "-Infinity" then false
  else
    let cs := match lit.data with
      | '-' :: r => r
      | cs => cs
    (cs.takeWhile (fun c => c ≠ 'e' && c ≠ 'E')).all (fun c => c = '0' || c = '.')

/-- Python truthiness of a JSON value. -/
def pyTruthy : Jval → Bool
  | .jnull => false
  | .jbool b => b
  | .jnum lit => !numLitIsZero lit
  | .jstr s => s ≠ ""
  | .jarr xs => !xs.isEmpty
  | .jobj fs => !fs.isEmpty

/-- Python `key in v` for a string key: key membership for dicts, element
equality for lists, substring test for strings, `TypeError` otherwise. -/
def pyInStr (key : String) : Jval → Except String Bool
  | .jobj fs => .ok (fs.any (fun kv => kv.1 = key))
  | .jarr xs => .ok (xs.any (fun x =>
      match x with
      | .jstr s => s = key
      | _ => false))
  | .jstr s => .ok (subIn key s)
  | _ => .error "TypeError: argument of type is not iterable"

/-- Python `v[key]` for a string key: dict lookup (last value wins for
duplicate keys, as in `json.loads`), `TypeError` for non-dicts, `KeyError`
for a missing key. -/
def pyGetItem (v : Jval) (key : String) : Except String Jval :=
  match v with
  | .jobj fs =>
    match fs.reverse.find? (fun kv => kv.1 = key) with
    | some kv => .ok kv.2
    | none => .error "KeyError"
  | _ => .error "TypeError: value is not subscriptable"

/-- `BeautifulSoup(x, 'html.parser')` applied to a dynamic value: accepts a
string, raises `TypeError` otherwise. -/
def soupArg : Jval → Except String String
  | .jstr s => .ok s
  | _ => .error "TypeError: BeautifulSoup argument is not a string"

/-! ## Request normalization (`SchoolsAPI._make_request`, lines 63-103) -/

/-- The transport-level outcome of one HTTP request: either a connection
failure (`httpx.RequestError`) or a response with status, content type,
body text and effective URL. -/
inductive RawResp where
  | transportErr (msg : String)
  | resp (status : Nat) (contentType : String) (body : String) (url : String)
deriving DecidableEq, Repr

/-- The dictionaries `_make_request` can return, as a tagged variant:
a parsed JSON body, an extracted JSON mapping, the `{'html', 'status'}`
envelope, the error-tagged envelopes (with optional `'url'`), and the
`{'error', 'client_error'}` payload. -/
inductive Env where
  | jsonBody (v : Jval)
  | extracted (v : Jval)
  | page (body : String) (status : Nat)
  | pageErr (body : String) (status : Nat) (url : Option String)
  | clientErr (msg : String)
deriving Repr

/-- `_make_request`, with the transport modelled by a `RawResp` oracle and
HTML parsing by `parseH`.  `Except.error` means an exception propagates to
the caller. -/
def makeRequest (sessionLive allowErrors : Bool) (parseH : String → List Node)
    (r : RawResp) : Except String Env :=
  if !sessionLive then .error "Session not initialized. Use async context manager."
  else
    match r with
    | .transportErr m =>
      if allowErrors then .ok (.clientErr m) else .error ("Request failed: " ++ m)
    | .resp status ct body url =>
      if status = 200 then
        if subIn "application/json" ct then
          match jsonLoads body with
          | some v => .ok (.jsonBody v)
          | none => .error "JSONDecodeError"
        else
          let jd := extract_json_from_html (parseH body) body
          if pyTruthy jd then
            match pyInStr "html" jd with
            | .error e => .error e
            | .ok b => if !b then .ok (.extracted jd) else .ok (.page body status)
          else .ok (.page body status)
      else if allowErrors then .ok (.pageErr body status (some url))
      else if status = 500 && subIn "html" ct then .ok (.pageErr body status none)
      else .error ("HTTP " ++ toString status ++ ": " ++ pyTake body 200 ++ "...")

/-! ## Session lifecycle (`__aenter__` / `__aexit__` / `_make_request` guard) -/

/-- Client-instance state: whether `self.session` is set, and whether the
underlying transport has been closed. -/
structure ClientState where
  sessionSet : Bool
  sessionClosed : Bool
deriving DecidableEq, Repr

/-- A fresh client: `self.session = None`. -/
def initClient : ClientState := ⟨false, false⟩

/-- `__aenter__`: installs a live transport client. -/
def aenter (_ : ClientState) : ClientState := ⟨true, false⟩

/-- `__aexit__`: `if self.session: await self.session.aclose()`.  It never
raises and never clears `self.session`; the `Option String` is a raised
exception (always `none`). -/
def aexit (s : ClientState) : ClientState × Option String :=
  if s.sessionSet then ({ s with sessionClosed := true }, none) else (s, none)

/-- The `if not self.session: raise SchoolsAPIError(...)` guard at the top of
`_make_request`: the only state check the client performs before a request. -/
def requestGuard (s : ClientState) : Option String :=
  if !s.sessionSet then some "Session not initialized. Use async context manager." else none

/-! ## Link harvesting (`search_schools` / `get_subdomains_page`, lines 388-465, 512-541) -/

/-- One harvested school entry. -/
structure School where
  name : String
  url : String
  kind : String
  src : Option String := none
deriving DecidableEq, Repr

/-- The anchor loop over the main page (`search_schools`, step 1). -/
def harvestMain (q : String) (nodes : List Node) : List School :=
  (nodes.filter (fun n => n.tag = "a" && n.hrefAttr.isSome)).filterMap (fun n =>
    let href := n.hrefAttr.getD ""
    let text := String.mk (pyStrip n.text.data)
    if (subIn ".schools.by" href && subIn "http" href) || pyStarts href "/subdomains" then
      if text ≠ "" && text.length > 3 && subIn (pyLower q) (pyLower text) then
        some ⟨text, href, "main_page_link", none⟩
      else none
    else none)

/-- The anchor loop over the `/subdomains` page (`get_subdomains_page`). -/
def harvestSub (nodes : List Node) : List School :=
  (nodes.filter (fun n => n.tag = "a" && n.hrefAttr.isSome)).filterMap (fun n =>
    let href := n.hrefAttr.getD ""
    let text := String.mk (pyStrip n.text.data)
    if (subIn ".schools.by" href || subIn "schools.by/" href) && text ≠ "" && text.length > 3 then
      some ⟨text, href, "subdomain", none⟩
    else none)

/-- The anchor loop over one auxiliary page (`search_schools`, step 3). -/
def harvestPage (q page : String) (nodes : List Node) : List School :=
  (nodes.filter (fun n => n.tag = "a" && n.hrefAttr.isSome)).filterMap (fun n =>
    let href := n.hrefAttr.getD ""
    let text := String.mk (pyStrip n.text.data)
    if (subIn ".schools.by" href || pyStarts href "http") && text ≠ "" then
      if subIn (pyLower q) (pyLower text) && text.length > 3 then
        some ⟨text, href, "from_" ++ page, some page⟩
      else none
    else none)

/-- The `if 'html' in result:` check on an envelope followed by
`BeautifulSoup(result['html'])`: `ok none` when the key is absent,
`ok (some body)` when a markup body is available, `error` when the dynamic
operations raise. -/
def envHtmlStr : Env → Except String (Option String)
  | .jsonBody v =>
    match pyInStr "html" v with
    | .error e => .error e
    | .ok false => .ok none
    | .ok true =>
      match pyGetItem v "html" with
      | .error e => .error e
      | .ok x =>
        match soupArg x with
        | .error e => .error e
        | .ok s => .ok (some s)
  | .extracted v =>
    match pyInStr "html" v with
    | .error e => .error e
    | .ok false => .ok none
    | .ok true =>
      match pyGetItem v "html" with
      | .error e => .error e
      | .ok x =>
        match soupArg x with
        | .error e => .error e
        | .ok s => .ok (some s)
  | .page body _ => .ok (some body)
  | .pageErr body _ _ => .ok (some body)
  | .clientErr _ => .ok none

/-- `get_subdomains_page`: fetch `/subdomains` with `allow_errors=True`,
harvest anchors from the markup body; every exception is caught and the
empty list returned. -/
def getSubdomainsPage (sessionLive : Bool) (parseH : String → List Node)
    (rSub : RawResp) : List School :=
  match makeRequest sessionLive true parseH rSub with
  | .error _ => []
  | .ok env =>
    match envHtmlStr env with
    | .error _ => []
    | .ok none => []
    | .ok (some body) => harvestSub (parseH body)

/-- One iteration of the `for page in test_pages` loop of `search_schools`,
whose inner `try`/`except` swallows every failure. -/
def pageSchools (q page : String) (sessionLive : Bool) (parseH : String → List Node)
    (r : RawResp) : List School :=
  match makeRequest sessionLive true parseH r with
  | .error _ => []
  | .ok env =>
    match envHtmlStr env with
    | .error _ => []
    | .ok none => []
    | .ok (some body) => harvestPage q page (parseH body)

/-- The deduplication loop of `search_schools`: keep the first entry for
each URL, tracking seen URLs. -/
def dedupByUrl : List School → List String → List School
  | [], _ => []
  | s :: rest, seen =>
    if seen.contains s.url then dedupByUrl rest seen
    else s :: dedupByUrl rest (s.url :: seen)

/-- The inputs `search_schools` consumes: session liveness, the HTML parse
function, and the transport outcome for each page it fetches. -/
structure SearchWorld where
  sessionLive : Bool
  parseH : String → List Node
  rMain : RawResp
  rSub : RawResp
  rCap : RawResp
  rHelp : RawResp
  rAbout : RawResp

/-- The full accumulation of `search_schools` before deduplication: main-page
links, query-filtered subdomain entries, and the three auxiliary pages. -/
def accumulatedSchools (q : String) (w : SearchWorld) : List School :=
  (match makeRequest w.sessionLive true w.parseH w.rMain with
   | .error _ => []
   | .ok env =>
     match envHtmlStr env with
     | .error _ => []
     | .ok none => []
     | .ok (some body) => harvestMain q (w.parseH body))
  ++ ((getSubdomainsPage w.sessionLive w.parseH w.rSub).filter
      (fun s => subIn (pyLower q) (pyLower s.name)))
  ++ pageSchools q "/capabilities" w.sessionLive w.parseH w.rCap
  ++ pageSchools q "/help" w.sessionLive w.parseH w.rHelp
  ++ pageSchools q "/about" w.sessionLive w.parseH w.rAbout

/-- `search_schools`, with exceptions made explicit: `Except.error` would
mean an exception reaches the caller.  The outer `except Exception` returns
the partial accumulation instead (which is empty at every point where an
exception can still occur), so no error ever escapes. -/
def searchSchoolsE (q : String) (w : SearchWorld) : Except String (List School) :=
  match makeRequest w.sessionLive true w.parseH w.rMain with
  | .error _ => .ok []
  | .ok env =>
    match envHtmlStr env with
    | .error _ => .ok []
    | .ok _ => .ok ((dedupByUrl (accumulatedSchools q w) []).take 15)

/-- `search_schools` as the caller sees it. -/
def searchSchools (q : String) (w : SearchWorld) : List School :=
  match searchSchoolsE q w with
  | .ok l => l
  | .error _ => []

/-- `get_subdomains_page` with exceptions made explicit: its `try`/`except`
returns `[]` on any failure, so no error ever escapes. -/
def getSubdomainsPageE (sessionLive : Bool) (parseH : String → List Node)
    (rSub : RawResp) : Except String (List School) :=
  .ok (getSubdomainsPage sessionLive parseH rSub)

/-! ## Helper lemmas about the field-inference loop -/

lemma pyFalsy_none : pyFalsy none = true := rfl

lemma pyFalsy_some (s : String) : pyFalsy (some s) = decide (s = "") := rfl

lemma pyFalsy_some_ne {s : String} (h : s ≠ "") : pyFalsy (some s) = false := by
  simp [pyFalsy_some, h]

/-- Once both fields hold truthy names, the loop no longer changes them. -/
lemma inferFieldsLoop_stable (l : List Node) {u p : Option String}
    (hu : pyFalsy u = false) (hp : pyFalsy p = false) :
    inferFieldsLoop l u p = (u, p) := by
  induction l with
  | nil => rfl
  | cons n rest ih => simp [inferFieldsLoop, hu, hp, ih]

/-- With the username side already fixed, the loop fills the password side
from the unique password-matching input. -/
lemma inferFieldsLoop_scanP {pinp : Node} {pn : String}
    (hpn : pinp.nameAttr = some pn) (hpne : pn ≠ "") (hmp : matchP pinp = true) :
    ∀ (l : List Node) (un : String), un ≠ "" →
      pinp ∈ l → (∀ n ∈ l, matchP n = true → n = pinp) →
      inferFieldsLoop l (some un) none = (some un, some pn) := by
  intro l
  induction l with
  | nil => intro un _ h; exact absurd h (List.not_mem_nil _)
  | cons n rest ih =>
    intro un hun hmem honly
    have hufal : pyFalsy (some un) = false := pyFalsy_some_ne hun
    have c1 : ¬((pyFalsy (some un) && matchU n) = true) := by simp [hufal]
    by_cases hn : matchP n = true
    · have hne : n = pinp := honly n (List.mem_cons_self _ _) hn
      subst hne
      have c2 : (pyFalsy (none : Option String) && matchP n) = true := by
        simp [pyFalsy_none, hn]
      rw [inferFieldsLoop, if_neg c1, if_pos c2, hpn]
      exact inferFieldsLoop_stable rest hufal (pyFalsy_some_ne hpne)
    · have hmem' : pinp ∈ rest := by
        rcases List.mem_cons.mp hmem with h | h
        · exact absurd (h ▸ hmp) (h ▸ hn)
        · exact h
      have c2 : ¬((pyFalsy (none : Option String) && matchP n) = true) := by
        simp [hn]
      rw [inferFieldsLoop, if_neg c1, if_neg c2]
      exact ih un hun hmem' (fun m hm => honly m (List.mem_cons_of_mem _ hm))

/-- With the password side already fixed, the loop fills the username side
from the unique username-matching input. -/
lemma inferFieldsLoop_scanU {uinp : Node} {un : String}
    (hun : uinp.nameAttr = some un) (hune : un ≠ "") (hmu : matchU uinp = true) :
    ∀ (l : List Node) (pn : String), pn ≠ "" →
      uinp ∈ l → (∀ n ∈ l, matchU n = true → n = uinp) →
      inferFieldsLoop l none (some pn) = (some un, some pn) := by
  intro l
  induction l with
  | nil => intro pn _ h; exact absurd h (List.not_mem_nil _)
  | cons n rest ih =>
    intro pn hpn hmem honly
    have hpfal : pyFalsy (some pn) = false := pyFalsy_some_ne hpn
    by_cases hn : matchU n = true
    · have hne : n = uinp := honly n (List.mem_cons_self _ _) hn
      subst hne
      have c1 : (pyFalsy (none : Option String) && matchU n) = true := by
        simp [pyFalsy_none, hn]
      rw [inferFieldsLoop, if_pos c1, hun]
      exact inferFieldsLoop_stable rest (pyFalsy_some_ne hune) hpfal
    · have hmem' : uinp ∈ rest := by
        rcases List.mem_cons.mp hmem with h | h
        · exact absurd (h ▸ hmu) (h ▸ hn)
        · exact h
      have c1 : ¬((pyFalsy (none : Option String) && matchU n) = true) := by
        simp [hn]
      have c2 : ¬((pyFalsy (some pn) && matchP n) = true) := by simp [hpfal]
      rw [inferFieldsLoop, if_neg c1, if_neg c2]
      exact ih pn hpn hmem' (fun m hm => honly m (List.mem_cons_of_mem _ hm))

/-- If no input matches the password condition, the password slot stays `None`. -/
lemma inferFieldsLoop_noP : ∀ (l : List Node) (u : Option String),
    (∀ n ∈ l, matchP n = false) → (inferFieldsLoop l u none).2 = none := by
  intro l
  induction l with
  | nil => intro u _; rfl
  | cons n rest ih =>
    intro u h
    have hn : matchP n = false := h n (List.mem_cons_self _ _)
    have hrest : ∀ m ∈ rest, matchP m = false := fun m hm => h m (List.mem_cons_of_mem _ hm)
    have hc2 : ¬((pyFalsy (none : Option String) && matchP n) = true) := by simp [hn]
    by_cases hc : (pyFalsy u && matchU n) = true
    · rw [inferFieldsLoop, if_pos hc]; exact ih _ hrest
    · rw [inferFieldsLoop, if_neg hc, if_neg hc2]; exact ih _ hrest

/-! ## Claim theorems -/

/-- C1: for every well-formed login form whose inputs contain exactly one
username-matching field (text/email) and exactly one password-type field,
both carrying non-empty names and neither matching the other side's
condition, the field inference of `authenticate` succeeds and returns the
two correct field names — regardless of where in the input list the two
fields appear. -/
theorem c1_field_inference (l : List Node) (uinp pinp : Node) (un pn : String)
    (hu : uinp ∈ l) (hp : pinp ∈ l)
    (hun : uinp.nameAttr = some un) (hpn : pinp.nameAttr = some pn)
    (hune : un ≠ "") (hpne : pn ≠ "")
    (hmu : matchU uinp = true) (hmp : matchP pinp = true)
    (humx : matchP uinp = false) (hpmx : matchU pinp = false)
    (honlyU : ∀ n ∈ l, matchU n = true → n = uinp)
    (honlyP : ∀ n ∈ l, matchP n = true → n = pinp) :
    inferFields l = (some un, some pn)
      ∧ fieldsCheck (inferFields l) = .ok (un, pn) := by
  have hne : uinp ≠ pinp := fun h => by rw [h] at hmu; exact absurd (hpmx ▸ hmu) (by simp)
  have aux : ∀ (l' : List Node), uinp ∈ l' → pinp ∈ l' →
      (∀ n ∈ l', matchU n = true → n = uinp) →
      (∀ n ∈ l', matchP n = true → n = pinp) →
      inferFieldsLoop l' none none = (some un, some pn) := by
    intro l'
    induction l' with
    | nil => intro h; exact absurd h (List.not_mem_nil _)
    | cons n rest ih =>
      intro hu' hp' honlyU' honlyP'
      by_cases hnu : matchU n = true
      · have hn : n = uinp := honlyU' n (List.mem_cons_self _ _) hnu
        subst hn
        have c1 : (pyFalsy (none : Option String) && matchU n) = true := by
          simp [pyFalsy_none, hnu]
        rw [inferFieldsLoop, if_pos c1, hun]
        have hp'' : pinp ∈ rest := by
          rcases List.mem_cons.mp hp' with h | h
          · exact absurd h.symm hne
          · exact h
        exact inferFieldsLoop_scanP hpn hpne hmp rest un hune hp''
          (fun m hm hmP => honlyP' m (List.mem_cons_of_mem _ hm) hmP)
      · have c1 : ¬((pyFalsy (none : Option String) && matchU n) = true) := by
          simp [hnu]
        by_cases hnp : matchP n = true
        · have hn : n = pinp := honlyP' n (List.mem_cons_self _ _) hnp
          subst hn
          have c2 : (pyFalsy (none : Option String) && matchP n) = true := by
            simp [pyFalsy_none, hnp]
          rw [inferFieldsLoop, if_neg c1, if_pos c2, hpn]
          have hu'' : uinp ∈ rest := by
            rcases List.mem_cons.mp hu' with h | h
            · exact absurd h hne
            · exact h
          exact inferFieldsLoop_scanU hun hune hmu rest pn hpne hu''
            (fun m hm hmU => honlyU' m (List.mem_cons_of_mem _ hm) hmU)
        · have c2 : ¬((pyFalsy (none : Option String) && matchP n) = true) := by
            simp [hnp]
          rw [inferFieldsLoop, if_neg c1, if_neg c2]
          have hu'' : uinp ∈ rest := by
            rcases List.mem_cons.mp hu' with h | h
            · exact absurd (h ▸ hmu) hnu
            · exact h
          have hp'' : pinp ∈ rest := by
            rcases List.mem_cons.mp hp' with h | h
            · exact absurd (h ▸ hmp) hnp
            · exact h
          exact ih hu'' hp''
            (fun m hm hmU => honlyU' m (List.mem_cons_of_mem _ hm) hmU)
            (fun m hm hmP => honlyP' m (List.mem_cons_of_mem _ hm) hmP)
  have h1 : inferFields l = (some un, some pn) := aux l hu hp honlyU honlyP
  refine ⟨h1, ?_⟩
  rw [h1]
  unfold fieldsCheck
  rw [if_neg (by simp [pyFalsy_some_ne hune, pyFalsy_some_ne hpne])]
  rfl

/-- Witness for C1: a form listing the password field before the username
field is still inferred correctly. -/
theorem c1_field_inference_witness :
    inferFields [{ tag := "input", nameAttr := some "password", typeAttr := some "password" },
        { tag := "input", nameAttr := some "username", typeAttr := some "text" }]
      = (some "username", some "password")
    ∧ fieldsCheck (inferFields
        [{ tag := "input", nameAttr := some "password", typeAttr := some "password" },
         { tag := "input", nameAttr := some "username", typeAttr := some "text" }])
      = .ok ("username", "password") :=
  c1_field_inference _
    { tag := "input", nameAttr := some "username", typeAttr := some "text" }
    { tag := "input", nameAttr := some "password", typeAttr := some "password" }
    "username" "password"
    (by decide) (by decide) rfl rfl (by decide) (by decide)
    rfl rfl rfl rfl (by decide) (by decide)

/-- C6: a form with no password-type input and no input named in the
password-name set makes the Authenticator's inference raise the
field error naming the missing password side, instead of submitting. -/
theorem c6_missing_password_error (l : List Node)
    (h : ∀ n ∈ l, matchP n = false) :
    fieldsCheck (inferFields l) =
      .error ("Cannot find login fields. Found: username="
        ++ pyShowOpt (inferFields l).1 ++ ", password=" ++ "None") := by
  have h2 : (inferFields l).2 = none := inferFieldsLoop_noP l none h
  unfold fieldsCheck
  rw [if_pos (by rw [h2, pyFalsy_none, Bool.or_true]), h2]
  rfl

/-- Witness for C6: a username-only form fails with the password side named
as missing. -/
theorem c6_missing_password_error_witness :
    (∀ n ∈ [({ tag := "input", nameAttr := some "username", typeAttr := some "text" } : Node)],
        matchP n = false)
    ∧ fieldsCheck (inferFields
        [{ tag := "input", nameAttr := some "username", typeAttr := some "text" }]) =
      .error ("Cannot find login fields. Found: username="
        ++ pyShowOpt (inferFields
            [{ tag := "input", nameAttr := some "username", typeAttr := some "text" }]).1
        ++ ", password=" ++ "None") :=
  ⟨by decide, c6_missing_password_error _ (by decide)⟩

/-- C2: on a 302/303/307 login response the outcome is redirect-based
Success (recording the redirect target and the cookie snapshot) exactly
when the `Location` header does not contain `/login` case-insensitively,
and otherwise the redirected-back-to-login Failure. -/
theorem c2_redirect_outcome (r : AuthResp)
    (h : r.status = 302 ∨ r.status = 303 ∨ r.status = 307) :
    (classifyAuthResponse r =
        .success "Authentication successful (redirected)" r.status
          (some (r.location.getD "")) r.cookies
      ↔ subIn "/login" (pyLower (r.location.getD "")) = false)
    ∧ (subIn "/login" (pyLower (r.location.getD "")) = true →
        classifyAuthResponse r =
          .failure "Authentication failed (redirected back to login)" r.status none) := by
  have hne : ¬(r.status = 200) := by rcases h with h | h | h <;> omega
  have hcond : (decide (r.status = 302) || decide (r.status = 303)
      || decide (r.status = 307)) = true := by
    rcases h with h | h | h <;> simp [h]
  unfold classifyAuthResponse
  rw [if_neg hne, if_pos hcond]
  by_cases hs : subIn "/login" (pyLower (r.location.getD "")) = true
  · simp [hs]
  · have hs' : subIn "/login" (pyLower (r.location.getD "")) = false :=
      Bool.eq_false_iff.mpr hs
    simp [hs']

/-- Witness for C2: `Location: /dashboard` yields Success and
`Location: /login?error=1` yields Failure. -/
theorem c2_redirect_outcome_witness :
    classifyAuthResponse ⟨302, some "/dashboard", [], "", [("sessionid", "abc")]⟩ =
      .success "Authentication successful (redirected)" 302 (some "/dashboard")
        [("sessionid", "abc")]
    ∧ classifyAuthResponse ⟨302, some "/login?error=1", [], "", []⟩ =
      .failure "Authentication failed (redirected back to login)" 302 none :=
  ⟨(c2_redirect_outcome ⟨302, some "/dashboard", [], "", [("sessionid", "abc")]⟩
      (Or.inl rfl)).1.mpr (by decide),
   (c2_redirect_outcome ⟨302, some "/login?error=1", [], "", []⟩
      (Or.inl rfl)).2 (by decide)⟩

/-- C3 counterexample: a 200 body whose only element is an `<a>` anchor with
class `error` — its class attribute contains "error", yet the outcome is
Success, because the scan only inspects div/span/p elements. -/
theorem c3_error_scan_counterexample :
    subIn "error" (pyLower "error") = true
    ∧ ({ tag := "a", classAttr := some "error", text := "Bad credentials" } : Node).classAttr
        = some "error"
    ∧ classifyAuthResponse
        ⟨200, none, [{ tag := "a", classAttr := some "error", text := "Bad credentials" }], "", []⟩
      = .success "Authentication successful" 200 none [] := by
  refine ⟨by decide, rfl, by decide⟩

/-- C3 amended: on HTTP 200 the outcome is Failure with the concatenated
stripped text of the offending elements exactly when some div, span or p
element has a class attribute containing "error" or "alert"
case-insensitively; otherwise it is Success with the cookie snapshot. -/
theorem c3_error_scan_amended (r : AuthResp) (h : r.status = 200) :
    (classifyAuthResponse r = .success "Authentication successful" 200 none r.cookies
      ↔ r.bodyNodes.filter errNodeP = [])
    ∧ (r.bodyNodes.filter errNodeP ≠ [] →
        classifyAuthResponse r =
          .failure ("Authentication failed: " ++ pyJoinSp
            ((r.bodyNodes.filter errNodeP).map (fun m => String.mk (pyStrip m.text.data))))
            200 none) := by
  unfold classifyAuthResponse
  rw [if_pos h, h]
  by_cases he : r.bodyNodes.filter errNodeP = []
  · simp [he]
  · simp [he, List.isEmpty_iff]

/-- Witness for C3 (amended): a div with class `alert alert-danger` makes
the outcome a Failure carrying the element's stripped text. -/
theorem c3_error_scan_amended_witness :
    classifyAuthResponse
        ⟨200, none,
         [{ tag := "div", classAttr := some "alert alert-danger", text := " Wrong password " }],
         "body", [("k", "v")]⟩
      = .failure "Authentication failed: Wrong password" 200 none :=
  (c3_error_scan_amended
    ⟨200, none,
     [{ tag := "div", classAttr := some "alert alert-danger", text := " Wrong password " }],
     "body", [("k", "v")]⟩ rfl).2 (by decide)

/-- C4 counterexample: a page whose only candidates are a non-hidden text
input named `_token` (value `AAA`) and a `csrf-token` meta tag (content
`BBB`): no hidden input exists, so under the claim's priority the meta
content `BBB` should win, but the code returns the input's `AAA`
(`soup.find('input', ...)` never checks the `type` attribute). -/
theorem c4_csrf_priority_counterexample :
    get_csrf_token
        [{ tag := "input", nameAttr := some "_token", typeAttr := some "text",
           valueAttr := some "AAA" },
         { tag := "meta", nameAttr := some "csrf-token", contentAttr := some "BBB" }]
      = some "AAA"
    ∧ ([{ tag := "input", nameAttr := some "_token", typeAttr := some "text",
          valueAttr := some "AAA" },
        { tag := "meta", nameAttr := some "csrf-token", contentAttr := some "BBB" }] :
          List Node).all (fun n => n.typeAttr ≠ some "hidden") = true
    ∧ ("AAA" : String) ≠ "BBB" := by
  refine ⟨by decide, by decide, by decide⟩

/-- C4 amended: CSRF-token discovery returns the first usable hit in the
fixed priority order over inputs of any type (not only hidden ones):
when no input named `csrfmiddlewaretoken` exists and the first input named
`_token` carries a truthy value, that value is returned, ahead of any
`csrf_token` input, meta tag or script match. -/
theorem c4_csrf_priority_amended (nodes : List Node) (n : Node) (v : String)
    (h1 : findByNameAttr nodes "input" "csrfmiddlewaretoken" = none)
    (h2 : findByNameAttr nodes "input" "_token" = some n)
    (h3 : candToken n = some v) :
    get_csrf_token nodes = some v := by
  simp [get_csrf_token, tokenFromCands, h1, h2, h3]

/-- Witness for C4 (amended): a text input named `_token` beats a meta tag
with a different content. -/
theorem c4_csrf_priority_amended_witness :
    get_csrf_token
        [{ tag := "input", nameAttr := some "_token", typeAttr := some "text",
           valueAttr := some "tok123" },
         { tag := "meta", nameAttr := some "csrf-token", contentAttr := some "metatok" }]
      = some "tok123" :=
  c4_csrf_priority_amended _
    { tag := "input", nameAttr := some "_token", typeAttr := some "text",
      valueAttr := some "tok123" }
    "tok123" (by decide) (by decide) (by decide)

/-- C9 counterexample: after open and close, closing again raises nothing
(the claim requires a `StateError`), and a request through the closed
session passes the client's only state guard instead of failing with a
`StateError`. -/
theorem c9_session_counterexample :
    (aexit (aexit (aenter initClient)).1).2 = none
    ∧ (aexit (aenter initClient)).2 = none
    ∧ requestGuard (aexit (aenter initClient)).1 = none := by
  decide

/-- C9 amended: a request through a Session that was never opened fails with
the `SchoolsAPIError` state guard; closing twice is a silent no-op rather
than an error, and a request through a closed-but-previously-opened Session
is not intercepted by the client's own guard. -/
theorem c9_session_amended (aE : Bool) (parseH : String → List Node) (r : RawResp) :
    requestGuard initClient = some "Session not initialized. Use async context manager."
    ∧ makeRequest false aE parseH r = .error "Session not initialized. Use async context manager."
    ∧ (aexit (aexit (aenter initClient)).1).2 = none
    ∧ requestGuard (aexit (aenter initClient)).1 = none := by
  exact ⟨rfl, rfl, rfl, rfl⟩

/-- Rebuilding a string from its character list is the identity. -/
lemma stringMkData (s : String) : String.mk s.data = s := rfl

/-- C5 counterexample: the single script line `config = {"a": 1};` contains
`config` (case-insensitively) and a brace pair whose slice strictly parses
to the mapping `a ↦ 1`, yet extraction returns the raw-markup fallback,
because the code additionally requires the script text to contain
`window.` or `var `. -/
theorem c5_extraction_counterexample :
    extract_json_from_html
        [{ tag := "script", strContent := some "config = \x7b\"a\": 1\x7d;" }] "PAGE"
      = .jobj [("html", .jstr "PAGE")]
    ∧ subIn "config" (pyLower "config = \x7b\"a\": 1\x7d;") = true
    ∧ ("config = \x7b\"a\": 1\x7d;".data.any (fun c => c = lbrace)
        && "config = \x7b\"a\": 1\x7d;".data.any (fun c => c = rbrace)) = true
    ∧ jsonParseChars
        (pySlice "config = \x7b\"a\": 1\x7d;".data 9 17)
      = some (.jobj [("a", .jnum "1")]) := by
  refine ⟨rfl, by decide, by decide, rfl⟩

/-- C5 amended: within script blocks whose stripped text contains `window.`
or `var `, a line mentioning `data` or `config` (case-insensitively) whose
substring between the first `\x7b` and the last `\x7d` strictly parses as
a mapping yields that mapping as the structured payload; a script
containing only `var x = 5;` yields no extraction and the caller falls
back to the raw-markup envelope. -/
theorem c5_extraction_amended (html line : String) (fs : List (String × Jval)) (i j : Nat)
    (h0 : line ≠ "")
    (h1 : pyStrip line.data = line.data)
    (h2 : (subInL "window.".data line.data || subInL "var ".data line.data) = true)
    (h3 : splitNl line.data = [line.data])
    (h4 : (subInL "data".data (pyLower line).data
        || subInL "config".data (pyLower line).data) = true)
    (h5 : line.data.any (fun c => c = lbrace) = true)
    (h6 : line.data.any (fun c => c = rbrace) = true)
    (h7 : firstIdxOf lbrace line.data = some i)
    (h8 : lastIdxOf rbrace line.data = some j)
    (h9 : jsonParseChars (pySlice line.data i (j + 1)) = some (.jobj fs)) :
    extract_json_from_html [{ tag := "script", strContent := some line }] html = .jobj fs
    ∧ extract_json_from_html [{ tag := "script", strContent := some "var x = 5;" }] html
      = .jobj [("html", .jstr html)] := by
  constructor
  · unfold extract_json_from_html scanScripts firstSome
    simp only [scanScript, h0, h1, h2, h3, if_true, if_pos rfl]
    simp only [scanScriptLines, firstSome, lineCandidate, stringMkData, h4, h5, h6, h7, h8, h9,
      Bool.and_self, if_true]
    simp [h0]
  · rfl

/-- Witness for C5 (amended): `var config = \x7b"a": 1\x7d;` yields the
structured payload `a ↦ 1`, while `var x = 5;` falls back to the raw
markup. -/
theorem c5_extraction_amended_witness :
    extract_json_from_html
        [{ tag := "script", strContent := some "var config = \x7b\"a\": 1\x7d;" }] "H"
      = .jobj [("a", .jnum "1")]
    ∧ extract_json_from_html [{ tag := "script", strContent := some "var x = 5;" }] "H"
      = .jobj [("html", .jstr "H")] :=
  c5_extraction_amended "H" "var config = \x7b\"a\": 1\x7d;" [("a", .jnum "1")] 13 20
    (by decide) rfl rfl rfl rfl rfl rfl rfl rfl rfl

/-- Is an `Except` value a success? -/
def isOkE {E A : Type} : Except E A → Bool
  | .ok _ => true
  | .error _ => false

/-- C7: for every query and every combination of per-page transport or parse
failures, neither `search_schools` nor `get_subdomains_page` lets an
exception reach the caller: both always produce a plain (possibly empty)
list. -/
theorem c7_harvest_never_raises (q : String) (w : SearchWorld) (sess : Bool)
    (parseH : String → List Node) (r : RawResp) :
    isOkE (searchSchoolsE q w) = true ∧ isOkE (getSubdomainsPageE sess parseH r) = true := by
  refine ⟨?_, rfl⟩
  unfold searchSchoolsE
  cases hm : makeRequest w.sessionLive true w.parseH w.rMain with
  | error e => simp [isOkE]
  | ok env =>
    cases he : envHtmlStr env with
    | error e => simp [isOkE, he]
    | ok o => simp [isOkE, he]

/-- Entries produced by deduplication never carry an already-seen URL. -/
lemma dedupByUrl_not_seen : ∀ (l : List School) (seen : List String) (u : String),
    u ∈ (dedupByUrl l seen).map School.url → u ∉ seen := by
  intro l
  induction l with
  | nil => intro seen u h; simp [dedupByUrl] at h
  | cons s rest ih =>
    intro seen u h
    by_cases hc : seen.contains s.url = true
    · rw [dedupByUrl, if_pos hc] at h
      exact ih seen u h
    · rw [dedupByUrl, if_neg hc] at h
      rcases List.mem_cons.mp h with h1 | h1
      · subst h1
        intro hmem
        exact hc (List.elem_eq_true_of_mem hmem)
      · intro hmem
        exact ih (s.url :: seen) u h1 (List.mem_cons_of_mem _ hmem)

/-- Deduplication produces pairwise-distinct URLs. -/
lemma dedupByUrl_nodup : ∀ (l : List School) (seen : List String),
    ((dedupByUrl l seen).map School.url).Nodup := by
  intro l
  induction l with
  | nil => intro seen; simp [dedupByUrl]
  | cons s rest ih =>
    intro seen
    by_cases hc : seen.contains s.url = true
    · rw [dedupByUrl, if_pos hc]; exact ih seen
    · rw [dedupByUrl, if_neg hc]
      refine List.nodup_cons.mpr ⟨?_, ih (s.url :: seen)⟩
      intro hmem
      exact dedupByUrl_not_seen rest (s.url :: seen) s.url hmem (List.mem_cons_self _ _)

/-- Deduplication only drops entries, in order. -/
lemma dedupByUrl_sublist : ∀ (l : List School) (seen : List String),
    (dedupByUrl l seen).Sublist l := by
  intro l
  induction l with
  | nil => intro seen; simp [dedupByUrl]
  | cons s rest ih =>
    intro seen
    by_cases hc : seen.contains s.url = true
    · rw [dedupByUrl, if_pos hc]; exact (ih seen).cons s
    · rw [dedupByUrl, if_neg hc]; exact (ih (s.url :: seen)).cons₂ s

/-- C8: `search_schools` never returns two entries with the same URL,
returns at most 15 entries, and its result is an order-preserving
subsequence of the full accumulation across all harvested sources. -/
theorem c8_dedup_order_cap (q : String) (w : SearchWorld) :
    ((searchSchools q w).map School.url).Nodup
    ∧ (searchSchools q w).length ≤ 15
    ∧ (searchSchools q w).Sublist (accumulatedSchools q w) := by
  unfold searchSchools searchSchoolsE
  cases hm : makeRequest w.sessionLive true w.parseH w.rMain with
  | error e => simp
  | ok env =>
    cases he : envHtmlStr env with
    | error e => simp [he]
    | ok o =>
      simp only [he]
      refine ⟨?_, ?_, ?_⟩
      · have h1 : ((dedupByUrl (accumulatedSchools q w) []).take 15).map School.url
            = ((dedupByUrl (accumulatedSchools q w) []).map School.url).take 15 :=
          List.map_take _ _ _
        rw [h1]
        exact (List.take_sublist _ _).nodup (dedupByUrl_nodup _ _)
      · exact List.length_take_le _ _
      · exact (List.take_sublist _ _).trans (dedupByUrl_sublist _ _)

/-- Does the request result carry a structured (extracted) payload whose
mapping contains the key `html`? -/
def extractedHasHtmlKey : Except String Env → Bool
  | .ok (.extracted (.jobj fs)) => fs.any (fun kv => kv.1 = "html")
  | _ => false

/-- The `'html' in json_data` test deciding `false` means the extracted
mapping has no `html` key. -/
lemma extractedHasHtmlKey_of_inStr_false {v : Jval}
    (h : pyInStr "html" v = .ok false) :
    extractedHasHtmlKey (.ok (.extracted v)) = false := by
  cases v with
  | jobj fs =>
    have h2 : fs.any (fun kv => kv.1 = "html") = false := by simpa [pyInStr] using h
    simpa [extractedHasHtmlKey] using h2
  | jnull => rfl
  | jbool b => rfl
  | jnum lit => rfl
  | jstr s => rfl
  | jarr xs => rfl

/-- C10: on a 200 response with a non-JSON content type, if the extracted
mapping contains the key `html` the request returns the raw-markup envelope
instead, and a structured payload returned from such a response never
contains the key `html`. -/
theorem c10_raw_markup_priority (aE : Bool) (parseH : String → List Node)
    (ct body url : String)
    (hct : subIn "application/json" ct = false) :
    ((pyInStr "html" (extract_json_from_html (parseH body) body) = .ok true) →
      makeRequest true aE parseH (.resp 200 ct body url) = .ok (.page body 200))
    ∧ extractedHasHtmlKey (makeRequest true aE parseH (.resp 200 ct body url)) = false := by
  have hres : makeRequest true aE parseH (.resp 200 ct body url)
      = (if pyTruthy (extract_json_from_html (parseH body) body) then
          match pyInStr "html" (extract_json_from_html (parseH body) body) with
          | .error e => .error e
          | .ok b =>
            if !b then .ok (.extracted (extract_json_from_html (parseH body) body))
            else .ok (.page body 200)
        else .ok (.page body 200)) := by
    simp [makeRequest, hct]
  rw [hres]
  by_cases ht : pyTruthy (extract_json_from_html (parseH body) body) = true
  · rw [if_pos ht]
    cases hin : pyInStr "html" (extract_json_from_html (parseH body) body) with
    | error e =>
      constructor
      · intro hok; exact Except.noConfusion hok
      · rfl
    | ok b =>
      cases b with
      | false =>
        constructor
        · intro hok
          exact absurd (Except.ok.inj hok) (by simp)
        · exact extractedHasHtmlKey_of_inStr_false hin
      | true =>
        constructor
        · intro _; rfl
        · rfl
  · rw [if_neg ht]
    exact ⟨fun _ => rfl, rfl⟩

/-- Parse oracle used by the C10 witness: one script assigning a JSON object
that contains an `html` key. -/
def c10WitnessParse : String → List Node :=
  fun _ => [{ tag := "script", strContent := some "var data = \x7b\"html\": \"inner\"\x7d;" }]

/-- Witness for C10: a script assigning `var data = \x7b"html": "inner"\x7d;`
parses to a mapping containing `html`, so the request returns the raw-markup
envelope and no structured payload escapes. -/
theorem c10_raw_markup_priority_witness :
    makeRequest true false c10WitnessParse (.resp 200 "text/html" "BODY" "https://schools.by/")
      = .ok (.page "BODY" 200)
    ∧ extractedHasHtmlKey
        (makeRequest true false c10WitnessParse
          (.resp 200 "text/html" "BODY" "https://schools.by/")) = false :=
  ⟨(c10_raw_markup_priority false c10WitnessParse
      "text/html" "BODY" "https://schools.by/" (by decide)).1 (by rfl),
   (c10_raw_markup_priority false c10WitnessParse
      "text/html" "BODY" "https://schools.by/" (by decide)).2⟩

end SchoolsBy
